import Mathlib

/-!
Verification of the SP500_Momentum repository (backtest.py,
trading_opportunities.py, alpaca_live_trading.py).

The Python sources are embedded shallowly:

* prices in `backtest.py` come out of pandas DataFrames as numpy
  `float64` scalars; numpy arithmetic never raises on division by zero,
  it produces `inf`, `-inf` or `nan` (with a runtime warning).  We model
  these values with `RFloat`: exact rationals extended with the IEEE-754
  special values.  Rounding is not modelled; no claim here depends on it.
* plain Python floats (as in `trading_opportunities.py` and
  `alpaca_live_trading.py`, whose inputs come from parsed JSON or the
  account API) raise `ZeroDivisionError` on division by zero; fallible
  computations there return `Except PyError`.
* pandas row lookup `df.loc[date, col]` (raising `KeyError` for a missing
  date) is modelled by an association-list lookup returning `Option`.
* file and network I/O (CSV logging, HTTP fetching, matplotlib) is
  modelled away: the trade log is returned as a list instead of being
  written to disk.
-/

/-- Python exception classes (plus one spec-level error class) relevant
to the embedded code.  `invalidConfiguration` is the error class the
specification expects for a zero position count; the sources never define
or raise it, it exists here only so the expectation is expressible. -/
inductive PyError where
  | keyError
  | zeroDivisionError
  | indexError
  | invalidConfiguration
deriving DecidableEq, Repr

/-- A numpy `float64` value, modelled exactly: a finite rational or one
of the IEEE-754 special values. -/
inductive RFloat where
  | finite (q : ℚ)
  | inf
  | negInf
  | nan
deriving DecidableEq, Repr

namespace RFloat

/-- IEEE-754 addition as performed by numpy on `float64` scalars. -/
def add : RFloat → RFloat → RFloat
  | nan, _ => nan
  | _, nan => nan
  | finite a, finite b => finite (a + b)
  | finite _, inf => inf
  | inf, finite _ => inf
  | finite _, negInf => negInf
  | negInf, finite _ => negInf
  | inf, inf => inf
  | negInf, negInf => negInf
  | inf, negInf => nan
  | negInf, inf => nan

/-- IEEE-754 negation. -/
def neg : RFloat → RFloat
  | finite a => finite (-a)
  | inf => negInf
  | negInf => inf
  | nan => nan

/-- IEEE-754 subtraction. -/
def sub (a b : RFloat) : RFloat := a.add b.neg

/-- IEEE-754 multiplication.  `inf * 0` is `nan`. -/
def mul : RFloat → RFloat → RFloat
  | nan, _ => nan
  | _, nan => nan
  | finite a, finite b => finite (a * b)
  | finite a, inf => if 0 < a then inf else if a < 0 then negInf else nan
  | finite a, negInf => if 0 < a then negInf else if a < 0 then inf else nan
  | inf, finite b => if 0 < b then inf else if b < 0 then negInf else nan
  | negInf, finite b => if 0 < b then negInf else if b < 0 then inf else nan
  | inf, inf => inf
  | inf, negInf => negInf
  | negInf, inf => negInf
  | negInf, negInf => inf

/-- IEEE-754 division, the numpy `float64` `/`: division by zero yields
`inf`, `-inf` or `nan` (warning only, no exception). -/
def div : RFloat → RFloat → RFloat
  | nan, _ => nan
  | _, nan => nan
  | finite a, finite b =>
      if b = 0 then (if 0 < a then inf else if a < 0 then negInf else nan)
      else finite (a / b)
  | finite _, inf => finite 0
  | finite _, negInf => finite 0
  | inf, finite b => if 0 ≤ b then inf else negInf
  | negInf, finite b => if 0 ≤ b then negInf else inf
  | inf, inf => nan
  | inf, negInf => nan
  | negInf, inf => nan
  | negInf, negInf => nan

/-- numpy `floor_divide` (`//` with a numpy operand): the floor of the
quotient for finite nonzero divisors; special operands give special
values (a zero divisor is modelled as `nan`; no claim depends on that
branch). -/
def fdiv : RFloat → RFloat → RFloat
  | nan, _ => nan
  | _, nan => nan
  | finite a, finite b =>
      if b = 0 then nan else finite ((⌊a / b⌋ : ℤ) : ℚ)
  | finite _, inf => finite 0
  | finite _, negInf => finite 0
  | inf, finite b => if 0 ≤ b then inf else negInf
  | negInf, finite b => if 0 ≤ b then negInf else inf
  | inf, inf => nan
  | inf, negInf => nan
  | negInf, inf => nan
  | negInf, negInf => nan

/-- Python float `<` (used by `list.sort`): comparisons involving `nan`
are `False`. -/
def pyLt : RFloat → RFloat → Bool
  | nan, _ => false
  | _, nan => false
  | finite a, finite b => decide (a < b)
  | finite _, inf => true
  | inf, finite _ => false
  | negInf, finite _ => true
  | finite _, negInf => false
  | negInf, inf => true
  | inf, negInf => false
  | inf, inf => false
  | negInf, negInf => false

/-- Python float `==`: `nan` is not equal to anything, including itself. -/
def pyEq : RFloat → RFloat → Bool
  | nan, _ => false
  | _, nan => false
  | finite a, finite b => decide (a = b)
  | inf, inf => true
  | negInf, negInf => true
  | _, _ => false

instance : Add RFloat := ⟨add⟩

instance : Neg RFloat := ⟨neg⟩

instance : Sub RFloat := ⟨sub⟩

instance : Mul RFloat := ⟨mul⟩

instance : Div RFloat := ⟨div⟩

instance (n : ℕ) : OfNat RFloat n := ⟨finite (OfNat.ofNat n)⟩

end RFloat

namespace Backtest

/-- One row of a per-symbol DataFrame: the `['open', 'close', 'high',
'low', 'volume']` columns kept by `fetch_alpaca_historical_data`.  The
field `open_` models the `open` column (`open` is a Lean keyword). -/
structure Bar where
  open_ : ℚ
  close : ℚ
  high : ℚ
  low : ℚ
  volume : ℚ
deriving DecidableEq, Repr

/-- A per-symbol DataFrame: rows indexed by date (dates unique). -/
abbrev Series := List (ℕ × Bar)

/-- The `historical_data` dict: symbol to DataFrame, in insertion order. -/
abbrev Store := List (String × Series)

/-- `df.loc[date, col]` row access: `some` row, or `none` for the
`KeyError` raised when `date` is not in the index. -/
def Series.loc (df : Series) (date : ℕ) : Option Bar :=
  (df.find? (fun p => p.1 == date)).map (·.2)

/-- Dict lookup `prices[s]` / `prices.get(s, d)` support. -/
def plookup (prices : List (String × RFloat)) (s : String) : Option RFloat :=
  (prices.find? (fun p => p.1 == s)).map (·.2)

/-- The trade dicts appended to `portfolio` and written to the CSV log. -/
structure TradeRecord where
  symbol : String
  quantity : RFloat
  price : RFloat
  trade_type : String
deriving DecidableEq, Repr

/-- `calculate_percentage_change` from backtest.py: no guard, numpy
semantics (a zero `previous_close` yields a special value, not an
exception and not `0`). -/
def calculate_percentage_change (previous_close today_open : RFloat) : RFloat :=
  (today_open - previous_close) / previous_close * 100

/-- The `movers` list built by `get_top_and_bottom_movers`: for each
symbol in dict order, look up the row at `date` (skip on `KeyError`) and
pair the symbol with the percentage change computed from that same row's
`close` and `open` columns. -/
def movers_for_date (historical_data : Store) (date : ℕ) : List (String × RFloat) :=
  historical_data.foldl
    (fun movers sd =>
      match Series.loc sd.2 date with
      | none => movers
      | some bar =>
          movers ++
            [(sd.1, calculate_percentage_change (.finite bar.close) (.finite bar.open_))])
    []

/-- Stable insertion (descending by percentage change) used to model
`movers.sort(key=lambda x: x[1], reverse=True)`: an earlier element goes
before a later one with an equal key. -/
def insertMoverDesc (x : String × RFloat) : List (String × RFloat) → List (String × RFloat)
  | [] => [x]
  | y :: ys =>
      if RFloat.pyLt y.2 x.2 || RFloat.pyEq x.2 y.2 then x :: y :: ys
      else y :: insertMoverDesc x ys

/-- Stable descending sort of the movers list (CPython's sort is stable;
on `nan`-free keys any stable descending sort agrees with it). -/
def sortMoversDesc (l : List (String × RFloat)) : List (String × RFloat) :=
  l.foldr insertMoverDesc []

/-- The fully ranked movers list for a date. -/
def rankMovers (historical_data : Store) (date : ℕ) : List (String × RFloat) :=
  sortMoversDesc (movers_for_date historical_data date)

/-- `get_top_and_bottom_movers` from backtest.py: `movers[:10]` and
`movers[-10:]` of the ranked list. -/
def get_top_and_bottom_movers (historical_data : Store) (date : ℕ) :
    List (String × RFloat) × List (String × RFloat) :=
  let movers := rankMovers historical_data date
  (movers.take 10, movers.drop (movers.length - 10))

/-- `place_trades` from backtest.py: for each mover with a price, append
a trade dict with `quantity = allocation // price` (negated for sells).
There is no guard against a zero quantity. -/
def place_trades (portfolio : List TradeRecord) (movers : List (String × RFloat))
    (allocation : RFloat) (prices : List (String × RFloat)) (trade_type : String) :
    List TradeRecord :=
  movers.foldl
    (fun pf m =>
      match plookup prices m.1 with
      | none => pf
      | some price =>
          let quantity := RFloat.fdiv allocation price
          pf ++ [{ symbol := m.1
                   quantity := if trade_type == "buy" then quantity else -quantity
                   price := price
                   trade_type := trade_type }])
    portfolio

/-- `close_positions_and_log` from backtest.py (minus the CSV write):
accumulate `(close_price - entry_price) * quantity` into the day's PnL,
where a missing close price defaults to `0` via `prices.get(symbol, 0)`,
and build the list of closing trade dicts. -/
def close_positions_and_log (portfolio : List TradeRecord)
    (prices : List (String × RFloat)) : RFloat × List TradeRecord :=
  portfolio.foldl
    (fun acc position =>
      let close_price := (plookup prices position.symbol).getD (.finite 0)
      (acc.1 + (close_price - position.price) * position.quantity,
       acc.2 ++ [{ symbol := position.symbol
                   quantity := -position.quantity
                   price := close_price
                   trade_type := "close" }]))
    (.finite 0, [])

/-- The open-price dict built in the daily loop:
`{s: historical_data[s].loc[date, 'open'] for s in historical_data if date in historical_data[s].index}`. -/
def open_prices_for (historical_data : Store) (date : ℕ) : List (String × RFloat) :=
  historical_data.foldl
    (fun acc sd =>
      match Series.loc sd.2 date with
      | none => acc
      | some bar => acc ++ [(sd.1, .finite bar.open_)])
    []

/-- The close-price dict built in the daily loop. -/
def close_prices_for (historical_data : Store) (date : ℕ) : List (String × RFloat) :=
  historical_data.foldl
    (fun acc sd =>
      match Series.loc sd.2 date with
      | none => acc
      | some bar => acc ++ [(sd.1, .finite bar.close)])
    []

/-- What one iteration of the daily loop of `backtest` produces. -/
structure DayResult where
  allocation : RFloat
  pnl : RFloat
  portfolio : List TradeRecord
  closing : List TradeRecord
deriving DecidableEq, Repr

/-- One iteration of the daily loop of `backtest`: rank movers, compute
`allocation = cash_balance * allocation_pct / 20`, open buys for the top
movers and sells for the bottom movers at the day's open prices, then
close everything at the day's close prices. -/
def backtestDay (historical_data : Store) (date : ℕ)
    (cash_balance allocation_pct : RFloat) : DayResult :=
  let tb := get_top_and_bottom_movers historical_data date
  let allocation := cash_balance * allocation_pct / 20
  let prices := open_prices_for historical_data date
  let portfolio := place_trades (place_trades [] tb.1 allocation prices "buy")
      tb.2 allocation prices "sell"
  let prices_close := close_prices_for historical_data date
  let pc := close_positions_and_log portfolio prices_close
  { allocation := allocation, pnl := pc.1, portfolio := portfolio, closing := pc.2 }

/-- The daily loop of `backtest`, carrying `cash_balance` forward with
`cash_balance += pnl` after each date. -/
def backtestLoop (historical_data : Store) (allocation_pct : RFloat) :
    List ℕ → RFloat → List DayResult
  | [], _ => []
  | date :: dates, cash_balance =>
      let r := backtestDay historical_data date cash_balance allocation_pct
      r :: backtestLoop historical_data allocation_pct dates (cash_balance + r.pnl)

/-- Stable ascending insertion used to model `sorted(...)` on dates. -/
def insertDateAsc (x : ℕ) : List ℕ → List ℕ
  | [] => [x]
  | y :: ys => if x ≤ y then x :: y :: ys else y :: insertDateAsc x ys

/-- `sorted(list(df.index))`. -/
def sortDatesAsc (l : List ℕ) : List ℕ :=
  l.foldr insertDateAsc []

/-- `backtest` from backtest.py: the date axis is the sorted index of the
FIRST symbol's DataFrame (`historical_data[list(historical_data.keys())[0]]`);
an empty dict raises `IndexError` there.  Returns `(pnl_history,
cash_balance)` as the source does. -/
def backtest (historical_data : Store) (cash allocation_pct : RFloat) :
    Except PyError (List RFloat × RFloat) :=
  match historical_data with
  | [] => .error .indexError
  | sd :: _ =>
      let dates := sortDatesAsc (sd.2.map Prod.fst)
      let trace := backtestLoop historical_data allocation_pct dates cash
      .ok (trace.map DayResult.pnl, trace.foldl (fun c r => c + r.pnl) cash)

/-- The rows `log_trades_to_csv` appends over a whole run: per date, the
opening portfolio first, then the closing trades. -/
def backtest_trade_log (historical_data : Store) (cash allocation_pct : RFloat) :
    Except PyError (List (ℕ × TradeRecord)) :=
  match historical_data with
  | [] => .error .indexError
  | sd :: _ =>
      let dates := sortDatesAsc (sd.2.map Prod.fst)
      let trace := backtestLoop historical_data allocation_pct dates cash
      .ok ((dates.zip trace).foldl
        (fun acc dr => acc ++ (dr.2.portfolio ++ dr.2.closing).map (fun t => (dr.1, t)))
        [])

/-- A `float64` value for the performance analyzer, over the reals (the
sample standard deviation involves a square root, so exact rationals do
not suffice there). -/
inductive SFloat where
  | finite (x : ℝ)
  | inf
  | negInf
  | nan

/-- IEEE-754 subtraction on `SFloat` (only the cases the analyzer can
reach matter; `nan` propagates). -/
noncomputable def SFloat.sub : SFloat → SFloat → SFloat
  | .nan, _ => .nan
  | _, .nan => .nan
  | .finite a, .finite b => .finite (a - b)
  | .finite _, .inf => .negInf
  | .finite _, .negInf => .inf
  | .inf, .finite _ => .inf
  | .negInf, .finite _ => .negInf
  | .inf, .negInf => .inf
  | .negInf, .inf => .negInf
  | .inf, .inf => .nan
  | .negInf, .negInf => .nan

open Classical in
/-- IEEE-754 division on `SFloat`: numpy yields `inf`, `-inf` or `nan`
on division by zero, it does not raise. -/
noncomputable def SFloat.div : SFloat → SFloat → SFloat
  | .nan, _ => .nan
  | _, .nan => .nan
  | .finite a, .finite b =>
      if b = 0 then (if 0 < a then .inf else if a < 0 then .negInf else .nan)
      else .finite (a / b)
  | .finite _, .inf => .finite 0
  | .finite _, .negInf => .finite 0
  | .inf, .finite b => if 0 ≤ b then .inf else .negInf
  | .negInf, .finite b => if 0 ≤ b then .negInf else .inf
  | .inf, .inf => .nan
  | .inf, .negInf => .nan
  | .negInf, .inf => .nan
  | .negInf, .negInf => .nan

/-- `pd.Series(xs).mean()`: the arithmetic mean, `nan` for an empty
series. -/
def series_mean (xs : List ℚ) : Option ℚ :=
  if xs.length = 0 then none else some (xs.sum / xs.length)

/-- The sample variance with `ddof = 1` (what `pd.Series(xs).std()`
takes the square root of); only evaluated for `2 ≤ xs.length`. -/
def sampleVar (xs : List ℚ) : ℚ :=
  let n : ℚ := xs.length
  let μ : ℚ := xs.sum / n
  (xs.map (fun x => (x - μ) ^ 2)).sum / (n - 1)

/-- `pd.Series(xs).std()`: the sample standard deviation, `nan` for
fewer than two observations (`ddof = 1` divides by `n - 1`). -/
noncomputable def series_std (xs : List ℚ) : SFloat :=
  if xs.length ≤ 1 then .nan else .finite (Real.sqrt ((sampleVar xs : ℚ) : ℝ))

/-- `calculate_sharpe_ratio` from backtest.py:
`(mean_return - risk_free_rate / 252) / std_dev` with pandas/numpy
`float64` arithmetic — a zero standard deviation silently yields a
special value, it does not raise. -/
noncomputable def calculate_sharpe_ratio (daily_returns : List ℚ)
    (risk_free_rate : ℚ) : SFloat :=
  let mean_return : SFloat :=
    match series_mean daily_returns with
    | none => .nan
    | some m => .finite (m : ℝ)
  let std_dev := series_std daily_returns
  SFloat.div (SFloat.sub mean_return (.finite ((risk_free_rate / 252 : ℚ) : ℝ))) std_dev

end Backtest

namespace TradingOpportunities

/-- `calculate_percentage_change` from trading_opportunities.py: its
inputs are plain Python floats parsed from JSON, and the zero case is
guarded, so the function is total and returns `0` for a zero previous
close. -/
def calculate_percentage_change (previous_close today_open : ℚ) : ℚ :=
  if previous_close = 0 then 0
  else (today_open - previous_close) / previous_close * 100

end TradingOpportunities

namespace AlpacaLiveTrading

/-- `calculate_allocation` from alpaca_live_trading.py:
`(cash_balance * percentage) / num_positions` on plain Python numbers; a
zero `num_positions` raises `ZeroDivisionError` (there is no guard and
no InvalidConfiguration error class in the source). -/
def calculate_allocation (cash_balance percentage : ℚ) (num_positions : ℕ) :
    Except PyError ℚ :=
  if num_positions = 0 then .error .zeroDivisionError
  else .ok (cash_balance * percentage / num_positions)

end AlpacaLiveTrading

namespace Backtest

/-- A two-row series for one symbol: date 1 with close `100`, date 2
with open `110` and close `120`.  Under the specified overnight formula
the change at date 2 is `(110 - 100) / 100 * 100 = 10`. -/
def c1Store : Store :=
  [("A", [(1, ⟨100, 100, 100, 100, 0⟩), (2, ⟨110, 120, 120, 110, 0⟩)])]

/-- A series with the same open/close pair on two dates, used by the
compounding example: day 1 has the given open and close, day 2 is flat
at `100`. -/
def c9Series (o1 c1 : ℚ) : Series :=
  [(1, ⟨o1, c1, o1, c1, 0⟩), (2, ⟨100, 100, 100, 100, 0⟩)]

/-- An 11-symbol store engineered so that day 1 of a backtest at
`cash = 100000`, `allocation_pct = 1` realizes a PnL of exactly `+500`:
with 11 ranked movers, the nine middle symbols appear in both the top
and the bottom slice and cancel; the top-only symbol `T` is bought with
quantity `100000 / 20 // 5000 = 1` and gains `5500 - 5000 = 500`; the
bottom-only symbol `K` is too expensive for the allocation (quantity
`0`). -/
def c9Store : Store :=
  [("T", c9Series 5000 5500),
   ("M1", c9Series 100 115),
   ("M2", c9Series 100 115),
   ("M3", c9Series 100 115),
   ("M4", c9Series 100 115),
   ("M5", c9Series 100 115),
   ("M6", c9Series 100 115),
   ("M7", c9Series 100 115),
   ("M8", c9Series 100 115),
   ("M9", c9Series 100 115),
   ("K", c9Series 9000 20000)]

/-- A two-symbol store: a ranked universe of size 2, smaller than 20, so
the top and bottom slices overlap. -/
def c10Store : Store :=
  [("A", [(1, ⟨12, 10, 12, 10, 0⟩)]),
   ("B", [(1, ⟨9, 10, 10, 9, 0⟩)])]

end Backtest

namespace RFloat

theorem finite_add (a b : ℚ) : finite a + finite b = finite (a + b) := rfl

theorem finite_sub (a b : ℚ) : finite a - finite b = finite (a - b) := by
  show (finite a).add (finite b).neg = _
  simp [add, neg, sub_eq_add_neg]

theorem finite_mul (a b : ℚ) : finite a * finite b = finite (a * b) := rfl

theorem finite_neg (a : ℚ) : -finite a = finite (-a) := rfl

theorem finite_div (a b : ℚ) (h : b ≠ 0) : finite a / finite b = finite (a / b) := by
  show div _ _ = _
  simp [div, h]

theorem finite_div_zero_pos (a : ℚ) (h : 0 < a) : finite a / finite 0 = inf := by
  show div _ _ = _
  simp [div, h]

theorem finite_div_zero_neg (a : ℚ) (h : a < 0) : finite a / finite 0 = negInf := by
  show div _ _ = _
  simp [div, h, asymm h]

theorem finite_fdiv (a b : ℚ) (h : b ≠ 0) :
    fdiv (finite a) (finite b) = finite ((⌊a / b⌋ : ℤ) : ℚ) := by
  simp [fdiv, h]

theorem pyLt_finite_true {a b : ℚ} (h : a < b) : pyLt (finite a) (finite b) = true := by
  simp [pyLt, h]

theorem pyLt_finite_false {a b : ℚ} (h : b ≤ a) : pyLt (finite a) (finite b) = false := by
  simpa [pyLt, decide_eq_false_iff_not] using not_lt.mpr h

theorem pyEq_finite_true {a b : ℚ} (h : a = b) : pyEq (finite a) (finite b) = true := by
  simp [pyEq, h]

theorem pyEq_finite_false {a b : ℚ} (h : a ≠ b) : pyEq (finite a) (finite b) = false := by
  simp [pyEq, h]

theorem ofNat_def (n : ℕ) : (OfNat.ofNat n : RFloat) = finite (OfNat.ofNat n) := rfl

theorem finite_mul_100 (a : ℚ) : finite a * (100 : RFloat) = finite (a * 100) := rfl

theorem mul_finite_inf_pos {a : ℚ} (h : 0 < a) : finite a * inf = inf := by
  show mul _ _ = _
  simp [mul, h]

theorem inf_mul_finite_pos {a : ℚ} (h : 0 < a) : inf * finite a = inf := by
  show mul _ _ = _
  simp [mul, h]

end RFloat

namespace Backtest

theorem backtestLoop_length (historical_data : Store) (allocation_pct : RFloat) :
    ∀ (dates : List ℕ) (cash : RFloat),
      (backtestLoop historical_data allocation_pct dates cash).length = dates.length := by
  intro dates
  induction dates with
  | nil => intro cash; rfl
  | cons d ds ih => intro cash; simp [backtestLoop, ih]

theorem insertMoverDesc_length (x : String × RFloat) (l : List (String × RFloat)) :
    (insertMoverDesc x l).length = l.length + 1 := by
  induction l with
  | nil => rfl
  | cons y ys ih =>
      by_cases h : (RFloat.pyLt y.2 x.2 || RFloat.pyEq x.2 y.2) = true <;>
        simp [insertMoverDesc, h, ih]

theorem sortMoversDesc_length (l : List (String × RFloat)) :
    (sortMoversDesc l).length = l.length := by
  induction l with
  | nil => rfl
  | cons x xs ih => simp [sortMoversDesc, List.foldr, insertMoverDesc_length] at ih ⊢; omega

end Backtest

/-- An element shared between the first-ten and last-ten slices of a
nonempty list shorter than 20: the element at index `length - 10`. -/
theorem take_drop_overlap {α : Type} (l : List α) (hpos : 0 < l.length)
    (hlt : l.length < 20) :
    ∃ x, x ∈ l.take 10 ∧ x ∈ l.drop (l.length - 10) := by
  have hi : l.length - 10 < l.length := Nat.sub_lt hpos (by norm_num)
  have hi10 : l.length - 10 < 10 := by omega
  refine ⟨l.get ⟨l.length - 10, hi⟩, ?_, ?_⟩
  · have hlen : l.length - 10 < (l.take 10).length := by simp [List.length_take]; omega
    have heq : (l.take 10).get ⟨l.length - 10, hlen⟩ = l.get ⟨l.length - 10, hi⟩ := by
      simp [List.get_eq_getElem, List.getElem_take]
    exact heq ▸ List.get_mem _ _ hlen
  · have hlen : 0 < (l.drop (l.length - 10)).length := by simp [List.length_drop]; omega
    have heq : (l.drop (l.length - 10)).get ⟨0, hlen⟩ = l.get ⟨l.length - 10, hi⟩ := by
      simp [List.get_eq_getElem, List.getElem_drop]
    exact heq ▸ List.get_mem _ _ hlen

/-- Claim C1. The claim says the ranking's percent change uses the close
of the immediately preceding entry of the symbol's series.  The code
(`prev_close = df.loc[date, 'close']`) uses the close of the bar at the
SAME date: on a series with close `100` at date 1 and open `110` /
close `120` at date 2, the ranked change at date 2 is
`(110 - 120) / 120 * 100 = -25/3`, while the previous-entry close `100`
would give `(110 - 100) / 100 * 100 = 10`. -/
theorem c1_ranker_uses_same_day_close :
    Backtest.get_top_and_bottom_movers Backtest.c1Store 2
        = ([("A", .finite (-25/3))], [("A", .finite (-25/3))])
      ∧ Backtest.calculate_percentage_change (.finite 100) (.finite 110) = .finite 10
      ∧ (-25/3 : ℚ) < 10 := by
  refine ⟨?_, ?_, by norm_num⟩
  · norm_num [Backtest.get_top_and_bottom_movers, Backtest.rankMovers,
      Backtest.movers_for_date, Backtest.c1Store, Backtest.Series.loc,
      Backtest.sortMoversDesc, Backtest.insertMoverDesc,
      Backtest.calculate_percentage_change, RFloat.finite_sub, RFloat.finite_mul,
      RFloat.finite_mul_100, RFloat.finite_div, List.find?, List.foldl, List.foldr]
  · norm_num [Backtest.calculate_percentage_change, RFloat.finite_sub,
      RFloat.finite_mul, RFloat.finite_mul_100, RFloat.finite_div]

/-- Claim C2. For `previous_close == 0` the backtest.py computation
`(today_open - previous_close) / previous_close * 100` divides by zero
on numpy floats and silently returns `inf` (not `0`); only the guarded
copy in trading_opportunities.py returns `0` as the claim states. -/
theorem c2_zero_previous_close_divergence :
    Backtest.calculate_percentage_change (.finite 0) (.finite 10) = .inf
      ∧ TradingOpportunities.calculate_percentage_change 0 10 = 0 := by
  constructor
  · show (RFloat.finite 10 - RFloat.finite 0) / RFloat.finite 0 * 100 = RFloat.inf
    rw [RFloat.finite_sub, show (10 : ℚ) - 0 = 10 by norm_num,
      RFloat.finite_div_zero_pos 10 (by norm_num), RFloat.ofNat_def,
      RFloat.inf_mul_finite_pos (by norm_num)]
  · simp [TradingOpportunities.calculate_percentage_change]

/-- Claim C4. `place_trades` has no guard on the computed quantity: a
price above the allocation gives `quantity = 5000 // 6000 = 0` and the
trade dict with quantity `0` is still appended to the portfolio (and
hence logged).  The live path (`execute_strategy`) guards `shares > 0`;
this simulator does not. -/
theorem c4_zero_quantity_trade_recorded :
    Backtest.place_trades [] [("A", .finite 0)] (.finite 5000) [("A", .finite 6000)] "buy"
        = [{ symbol := "A", quantity := .finite 0, price := .finite 6000,
             trade_type := "buy" }]
      ∧ RFloat.fdiv (.finite 5000) (.finite 6000) = .finite 0 := by
  constructor
  · norm_num [Backtest.place_trades, Backtest.plookup, List.find?, List.foldl,
      RFloat.finite_fdiv]
  · rw [RFloat.finite_fdiv _ _ (by norm_num)]
    norm_num

/-- Claim C5, counterexample. A position whose symbol is absent from the
close-price dict is not skipped: `prices.get(symbol, 0)` substitutes a
close price of `0`, the PnL contribution becomes `(0 - 10) * 1 = -10`,
and the close trade record carries price `0`. -/
theorem c5_missing_close_priced_at_zero :
    Backtest.close_positions_and_log
        [{ symbol := "A", quantity := .finite 1, price := .finite 10,
           trade_type := "buy" }] []
      = (.finite (-10),
         [{ symbol := "A", quantity := .finite (-1), price := .finite 0,
            trade_type := "close" }]) := by
  norm_num [Backtest.close_positions_and_log, Backtest.plookup, List.find?,
    List.foldl, Option.getD, RFloat.finite_sub, RFloat.finite_mul,
    RFloat.finite_add, RFloat.finite_neg]

/-- Claim C5, amended. For any position whose symbol has no close price,
`close_positions_and_log` prices the close at `0`: the PnL contribution
is `(0 - entry) * quantity` and the close record has price `0`. -/
theorem c5_missing_close_defaults_zero (sym : String) (q entry : ℚ) (tt : String)
    (prices : List (String × RFloat)) (h : Backtest.plookup prices sym = none) :
    Backtest.close_positions_and_log
        [{ symbol := sym, quantity := .finite q, price := .finite entry,
           trade_type := tt }] prices
      = (.finite ((0 - entry) * q),
         [{ symbol := sym, quantity := .finite (-q), price := .finite 0,
            trade_type := "close" }]) := by
  simp [Backtest.close_positions_and_log, h, Option.getD, List.foldl,
    RFloat.finite_sub, RFloat.finite_mul, RFloat.finite_add, RFloat.finite_neg]

/-- Claim C5, witness for the amended theorem at a concrete input. -/
theorem c5_missing_close_defaults_zero_witness :
    Backtest.plookup [] "B" = none
      ∧ Backtest.close_positions_and_log
          [{ symbol := "B", quantity := .finite 2, price := .finite 7,
             trade_type := "sell" }] []
        = (.finite ((0 - 7) * 2),
           [{ symbol := "B", quantity := .finite (-2), price := .finite 0,
              trade_type := "close" }]) :=
  ⟨rfl, c5_missing_close_defaults_zero "B" 2 7 "sell" [] rfl⟩

/-- Claim C6, counterexample. `calculate_allocation` with
`num_positions == 0` raises a plain `ZeroDivisionError` — exactly the
unclassified division error the claim excludes; no InvalidConfiguration
error exists in the source. -/
theorem c6_zero_positions_raises_zero_division :
    AlpacaLiveTrading.calculate_allocation 100000 1 0
        = .error .zeroDivisionError
      ∧ AlpacaLiveTrading.calculate_allocation 100000 1 0
        ≠ .error .invalidConfiguration := by
  refine ⟨rfl, ?_⟩
  simp [AlpacaLiveTrading.calculate_allocation]

/-- Claim C6, amended. `calculate_allocation` is a pure function of its
arguments computing `cash_balance * percentage / num_positions`; a zero
`num_positions` raises `ZeroDivisionError` at call time, and a positive
one returns the exact per-position dollar amount (`q * n` recovers the
deployed cash). -/
theorem c6_allocation_formula (cash pct : ℚ) (n : ℕ) :
    AlpacaLiveTrading.calculate_allocation cash pct 0 = .error .zeroDivisionError
      ∧ (0 < n → ∃ q, AlpacaLiveTrading.calculate_allocation cash pct n = .ok q
          ∧ q * n = cash * pct) := by
  refine ⟨rfl, fun hn => ⟨cash * pct / n, ?_, ?_⟩⟩
  · simp [AlpacaLiveTrading.calculate_allocation, Nat.pos_iff_ne_zero.mp hn]
  · have hn' : (n : ℚ) ≠ 0 := Nat.cast_ne_zero.mpr (Nat.pos_iff_ne_zero.mp hn)
    exact div_mul_cancel₀ _ hn'

/-- Claim C6, witness: `allocate(100000, 1, 20)` returns `5000`. -/
theorem c6_allocation_formula_witness :
    0 < 20
      ∧ (∃ q, AlpacaLiveTrading.calculate_allocation 100000 1 20 = .ok q
          ∧ q * (20 : ℕ) = 100000 * 1)
      ∧ AlpacaLiveTrading.calculate_allocation 100000 1 20 = .ok 5000 := by
  refine ⟨by norm_num, (c6_allocation_formula 100000 1 20).2 (by norm_num), ?_⟩
  norm_num [AlpacaLiveTrading.calculate_allocation]

/-- Claim C3, counterexample. An empty (but structurally valid)
price-series store is input data, not configuration, yet the run aborts:
deriving the date axis evaluates `list(historical_data.keys())[0]`,
which raises `IndexError` before any simulation. -/
theorem c3_empty_store_aborts :
    Backtest.backtest [] (.finite 100000) (.finite 1) = .error .indexError
      ∧ Backtest.backtest_trade_log [] (.finite 100000) (.finite 1)
        = .error .indexError :=
  ⟨rfl, rfl⟩

/-- Claim C3, amended. For every nonempty store — missing bars, absent
symbols and degenerate prices included, since numpy arithmetic never
raises — the backtest completes, returning a PnL history with exactly
one entry per date of the first symbol's series, together with the full
trade log. -/
theorem c3_nonempty_run_completes (s0 : String) (df0 : Backtest.Series)
    (rest : Backtest.Store) (cash pct : RFloat) :
    ∃ pnls final,
      Backtest.backtest ((s0, df0) :: rest) cash pct = .ok (pnls, final)
        ∧ pnls.length = (Backtest.sortDatesAsc (df0.map Prod.fst)).length
        ∧ ∃ log, Backtest.backtest_trade_log ((s0, df0) :: rest) cash pct = .ok log := by
  refine ⟨_, _, rfl, ?_, _, rfl⟩
  simp [Backtest.backtestLoop_length]

/-- Claim C7, counterexample. An all-zero two-day PnL history has sample
standard deviation `0`; the Sharpe computation then silently returns
`-inf` (the numerator `0 - 0.02 / 252` is negative and numpy division by
zero yields an infinity), instead of failing. -/
theorem c7_zero_std_silently_neg_inf :
    Backtest.calculate_sharpe_ratio [0, 0] (1/50) = Backtest.SFloat.negInf := by
  unfold Backtest.calculate_sharpe_ratio Backtest.series_std Backtest.series_mean
  norm_num [Backtest.sampleVar]
  simp only [Backtest.SFloat.sub, Backtest.SFloat.div]
  norm_num

/-- Claim C7, amended. Whenever the PnL history has at least two entries
and zero sample variance (so the sample standard deviation is `0`),
`calculate_sharpe_ratio` silently returns `inf`, `-inf` or `nan` — a
non-finite value, never an error. -/
theorem c7_zero_variance_nonfinite (xs : List ℚ) (rf : ℚ)
    (h2 : 2 ≤ xs.length) (hv : Backtest.sampleVar xs = 0) :
    Backtest.calculate_sharpe_ratio xs rf = .inf
      ∨ Backtest.calculate_sharpe_ratio xs rf = .negInf
      ∨ Backtest.calculate_sharpe_ratio xs rf = .nan := by
  have hlen0 : ¬ xs.length = 0 := by omega
  have hlen1 : ¬ xs.length ≤ 1 := by omega
  unfold Backtest.calculate_sharpe_ratio Backtest.series_std Backtest.series_mean
  simp only [hlen0, hlen1, if_false, hv]
  rw [show ((0 : ℚ) : ℝ) = 0 by norm_num, Real.sqrt_zero]
  simp only [Backtest.SFloat.sub, Backtest.SFloat.div, if_true]
  rcases lt_trichotomy ((xs.sum / xs.length : ℚ) : ℝ) ((rf / 252 : ℚ) : ℝ) with hlt | heq | hgt
  · refine Or.inr (Or.inl ?_)
    rw [if_neg (by linarith), if_pos (by linarith)]
  · refine Or.inr (Or.inr ?_)
    rw [if_neg (by linarith), if_neg (by linarith)]
  · refine Or.inl ?_
    rw [if_pos (by linarith)]

/-- Claim C7, witness for the amended theorem: `[1, 1]` has two entries
and zero sample variance. -/
theorem c7_zero_variance_nonfinite_witness :
    2 ≤ ([1, 1] : List ℚ).length
      ∧ Backtest.sampleVar [1, 1] = 0
      ∧ (Backtest.calculate_sharpe_ratio [1, 1] (1/50) = .inf
          ∨ Backtest.calculate_sharpe_ratio [1, 1] (1/50) = .negInf
          ∨ Backtest.calculate_sharpe_ratio [1, 1] (1/50) = .nan) :=
  ⟨by norm_num, by norm_num [Backtest.sampleVar],
   c7_zero_variance_nonfinite [1, 1] (1/50) (by norm_num)
     (by norm_num [Backtest.sampleVar])⟩

/-- Claim C8. With a close price present, a single opened position
contributes exactly `(close_price - entry_price) * quantity` to the
day's PnL, for any trade type; hence a position closed at its entry
price contributes `0`, both for a long (`buy`, positive quantity) and a
short (`sell`, negative quantity). -/
theorem c8_close_pnl_formula (sym : String) (q entry c : ℚ)
    (prices : List (String × RFloat)) (tt : String)
    (h : Backtest.plookup prices sym = some (.finite c)) :
    (Backtest.close_positions_and_log
        [{ symbol := sym, quantity := .finite q, price := .finite entry,
           trade_type := tt }] prices).1
      = .finite ((c - entry) * q)
    ∧ (c = entry →
        (Backtest.close_positions_and_log
            [{ symbol := sym, quantity := .finite q, price := .finite entry,
               trade_type := "buy" }] prices).1
          = .finite 0
        ∧ (Backtest.close_positions_and_log
            [{ symbol := sym, quantity := .finite (-q), price := .finite entry,
               trade_type := "sell" }] prices).1
          = .finite 0) := by
  have key : ∀ (ttx : String) (qx : ℚ),
      (Backtest.close_positions_and_log
          [{ symbol := sym, quantity := .finite qx, price := .finite entry,
             trade_type := ttx }] prices).1
        = .finite ((c - entry) * qx) := by
    intro ttx qx
    simp [Backtest.close_positions_and_log, h, List.foldl, Option.getD,
      RFloat.finite_sub, RFloat.finite_mul, RFloat.finite_add]
  refine ⟨key tt q, fun hce => ⟨?_, ?_⟩⟩ <;> rw [key, hce] <;> norm_num

/-- Claim C8, witness: a round trip at price `100` with quantity `10`
(long) and `-10` (short) contributes zero PnL. -/
theorem c8_close_pnl_formula_witness :
    Backtest.plookup [("A", RFloat.finite 100)] "A" = some (.finite 100)
      ∧ (Backtest.close_positions_and_log
          [{ symbol := "A", quantity := .finite 10, price := .finite 100,
             trade_type := "buy" }] [("A", .finite 100)]).1
        = .finite ((100 - 100) * 10)
      ∧ (Backtest.close_positions_and_log
          [{ symbol := "A", quantity := .finite 10, price := .finite 100,
             trade_type := "buy" }] [("A", .finite 100)]).1
        = .finite 0
      ∧ (Backtest.close_positions_and_log
          [{ symbol := "A", quantity := .finite (-10), price := .finite 100,
             trade_type := "sell" }] [("A", .finite 100)]).1
        = .finite 0 :=
  ⟨rfl,
   (c8_close_pnl_formula "A" 10 100 100 [("A", .finite 100)] "buy" rfl).1,
   ((c8_close_pnl_formula "A" 10 100 100 [("A", .finite 100)] "buy" rfl).2 rfl).1,
   ((c8_close_pnl_formula "A" 10 100 100 [("A", .finite 100)] "buy" rfl).2 rfl).2⟩

/-- Claim C10. The top movers are `movers[:10]` and the bottom movers
are `movers[-10:]` of the ranked list, kept exactly as sliced; when the
ranked universe is nonempty and smaller than 20, some mover belongs to
both slices, and the overlap is not deduplicated. -/
theorem c10_top_bottom_slices (store : Backtest.Store) (date : ℕ) :
    (Backtest.get_top_and_bottom_movers store date).1
        = (Backtest.rankMovers store date).take 10
      ∧ (Backtest.get_top_and_bottom_movers store date).2
        = (Backtest.rankMovers store date).drop
            ((Backtest.rankMovers store date).length - 10)
      ∧ (0 < (Backtest.rankMovers store date).length →
          (Backtest.rankMovers store date).length < 20 →
          ∃ m, m ∈ (Backtest.get_top_and_bottom_movers store date).1
            ∧ m ∈ (Backtest.get_top_and_bottom_movers store date).2) := by
  refine ⟨rfl, rfl, fun h1 h2 => ?_⟩
  simpa [Backtest.get_top_and_bottom_movers] using
    take_drop_overlap (Backtest.rankMovers store date) h1 h2

/-- Claim C10, witness: a two-symbol universe (smaller than 20) where
the top and bottom slices overlap. -/
theorem c10_top_bottom_slices_witness :
    0 < (Backtest.rankMovers Backtest.c10Store 1).length
      ∧ (Backtest.rankMovers Backtest.c10Store 1).length < 20
      ∧ ∃ m, m ∈ (Backtest.get_top_and_bottom_movers Backtest.c10Store 1).1
          ∧ m ∈ (Backtest.get_top_and_bottom_movers Backtest.c10Store 1).2 := by
  have hm : Backtest.movers_for_date Backtest.c10Store 1
      = [("A", .finite 20), ("B", .finite (-10))] := by
    norm_num [Backtest.movers_for_date, Backtest.c10Store, Backtest.Series.loc,
      Backtest.calculate_percentage_change, RFloat.finite_sub, RFloat.finite_mul,
      RFloat.finite_mul_100, RFloat.finite_div, List.find?, List.foldl]
  have hlen : (Backtest.rankMovers Backtest.c10Store 1).length = 2 := by
    rw [Backtest.rankMovers, Backtest.sortMoversDesc_length, hm]
    rfl
  exact ⟨by omega, by omega,
    (c10_top_bottom_slices Backtest.c10Store 1).2.2 (by omega) (by omega)⟩

/-- Claim C9. In the daily loop, the allocation used on day `k` equals
`cash_balance * allocation_pct / 20` where `cash_balance` is the initial
cash plus the accumulated PnL of the preceding days (the engine performs
`cash_balance += pnl` after each date), not the initial cash. -/
theorem c9_allocation_from_current_cash (hd : Backtest.Store) (pct : RFloat)
    (dates : List ℕ) (cash : RFloat) (k : ℕ)
    (h : k < (Backtest.backtestLoop hd pct dates cash).length) :
    ((Backtest.backtestLoop hd pct dates cash).get ⟨k, h⟩).allocation
      = ((Backtest.backtestLoop hd pct dates cash).take k).foldl
          (fun c r => c + r.pnl) cash * pct / 20 := by
  induction dates generalizing cash k with
  | nil => simp [Backtest.backtestLoop] at h
  | cons d ds ih =>
      cases k with
      | zero =>
          simp [Backtest.backtestLoop, Backtest.backtestDay]
      | succ k =>
          have h' : k < (Backtest.backtestLoop hd pct ds
              (cash + (Backtest.backtestDay hd d cash pct).pnl)).length := by
            simpa [Backtest.backtestLoop] using h
          simpa [Backtest.backtestLoop, List.take_succ_cons, List.foldl_cons]
            using ih (cash + (Backtest.backtestDay hd d cash pct).pnl) k h'

/-- Day-1 movers of the compounding example store, in dict order. -/
theorem c9w_movers : Backtest.movers_for_date Backtest.c9Store 1
    = [("T", .finite (-100/11)), ("M1", .finite (-300/23)), ("M2", .finite (-300/23)),
       ("M3", .finite (-300/23)), ("M4", .finite (-300/23)), ("M5", .finite (-300/23)),
       ("M6", .finite (-300/23)), ("M7", .finite (-300/23)), ("M8", .finite (-300/23)),
       ("M9", .finite (-300/23)), ("K", .finite (-55))] := by
  norm_num [Backtest.movers_for_date, Backtest.c9Store, Backtest.c9Series,
    Backtest.Series.loc, Backtest.calculate_percentage_change, RFloat.finite_sub,
    RFloat.finite_mul, RFloat.finite_mul_100, RFloat.finite_div, List.find?, List.foldl]

/-- The day-1 movers are already in descending change order. -/
theorem c9w_rank : Backtest.rankMovers Backtest.c9Store 1
    = [("T", .finite (-100/11)), ("M1", .finite (-300/23)), ("M2", .finite (-300/23)),
       ("M3", .finite (-300/23)), ("M4", .finite (-300/23)), ("M5", .finite (-300/23)),
       ("M6", .finite (-300/23)), ("M7", .finite (-300/23)), ("M8", .finite (-300/23)),
       ("M9", .finite (-300/23)), ("K", .finite (-55))] := by
  rw [Backtest.rankMovers, c9w_movers]
  norm_num [Backtest.sortMoversDesc, Backtest.insertMoverDesc, List.foldr,
    RFloat.pyLt_finite_true, RFloat.pyLt_finite_false, RFloat.pyEq_finite_true,
    RFloat.pyEq_finite_false]

/-- Day-1 top and bottom slices: the nine middle symbols overlap. -/
theorem c9w_top_bottom : Backtest.get_top_and_bottom_movers Backtest.c9Store 1
    = ([("T", .finite (-100/11)), ("M1", .finite (-300/23)), ("M2", .finite (-300/23)),
        ("M3", .finite (-300/23)), ("M4", .finite (-300/23)), ("M5", .finite (-300/23)),
        ("M6", .finite (-300/23)), ("M7", .finite (-300/23)), ("M8", .finite (-300/23)),
        ("M9", .finite (-300/23))],
       [("M1", .finite (-300/23)), ("M2", .finite (-300/23)), ("M3", .finite (-300/23)),
        ("M4", .finite (-300/23)), ("M5", .finite (-300/23)), ("M6", .finite (-300/23)),
        ("M7", .finite (-300/23)), ("M8", .finite (-300/23)), ("M9", .finite (-300/23)),
        ("K", .finite (-55))]) := by
  simp only [Backtest.get_top_and_bottom_movers, c9w_rank]
  rfl

theorem c9w_open : Backtest.open_prices_for Backtest.c9Store 1
    = [("T", .finite 5000), ("M1", .finite 100), ("M2", .finite 100),
       ("M3", .finite 100), ("M4", .finite 100), ("M5", .finite 100),
       ("M6", .finite 100), ("M7", .finite 100), ("M8", .finite 100),
       ("M9", .finite 100), ("K", .finite 9000)] := rfl

theorem c9w_close : Backtest.close_prices_for Backtest.c9Store 1
    = [("T", .finite 5500), ("M1", .finite 115), ("M2", .finite 115),
       ("M3", .finite 115), ("M4", .finite 115), ("M5", .finite 115),
       ("M6", .finite 115), ("M7", .finite 115), ("M8", .finite 115),
       ("M9", .finite 115), ("K", .finite 20000)] := rfl

/-- Day-1 allocation: `100000 * 1 / 20 = 5000`. -/
theorem c9w_alloc : RFloat.finite 100000 * RFloat.finite 1 / 20 = RFloat.finite 5000 := by
  rw [RFloat.finite_mul, RFloat.ofNat_def, RFloat.finite_div _ _ (by norm_num)]
  norm_num

/-- Day-1 portfolio: `T` is bought with quantity `5000 // 5000 = 1`,
each middle symbol is bought and sold with quantity `50`, and `K` is
sold with quantity `5000 // 9000 = 0`. -/
theorem c9w_portfolio :
    Backtest.place_trades
        (Backtest.place_trades []
          [("T", .finite (-100/11)), ("M1", .finite (-300/23)), ("M2", .finite (-300/23)),
           ("M3", .finite (-300/23)), ("M4", .finite (-300/23)), ("M5", .finite (-300/23)),
           ("M6", .finite (-300/23)), ("M7", .finite (-300/23)), ("M8", .finite (-300/23)),
           ("M9", .finite (-300/23))]
          (.finite 5000)
          [("T", .finite 5000), ("M1", .finite 100), ("M2", .finite 100),
           ("M3", .finite 100), ("M4", .finite 100), ("M5", .finite 100),
           ("M6", .finite 100), ("M7", .finite 100), ("M8", .finite 100),
           ("M9", .finite 100), ("K", .finite 9000)] "buy")
        [("M1", .finite (-300/23)), ("M2", .finite (-300/23)), ("M3", .finite (-300/23)),
         ("M4", .finite (-300/23)), ("M5", .finite (-300/23)), ("M6", .finite (-300/23)),
         ("M7", .finite (-300/23)), ("M8", .finite (-300/23)), ("M9", .finite (-300/23)),
         ("K", .finite (-55))]
        (.finite 5000)
        [("T", .finite 5000), ("M1", .finite 100), ("M2", .finite 100),
         ("M3", .finite 100), ("M4", .finite 100), ("M5", .finite 100),
         ("M6", .finite 100), ("M7", .finite 100), ("M8", .finite 100),
         ("M9", .finite 100), ("K", .finite 9000)] "sell"
      = [{ symbol := "T", quantity := .finite 1, price := .finite 5000, trade_type := "buy" },
         { symbol := "M1", quantity := .finite 50, price := .finite 100, trade_type := "buy" },
         { symbol := "M2", quantity := .finite 50, price := .finite 100, trade_type := "buy" },
         { symbol := "M3", quantity := .finite 50, price := .finite 100, trade_type := "buy" },
         { symbol := "M4", quantity := .finite 50, price := .finite 100, trade_type := "buy" },
         { symbol := "M5", quantity := .finite 50, price := .finite 100, trade_type := "buy" },
         { symbol := "M6", quantity := .finite 50, price := .finite 100, trade_type := "buy" },
         { symbol := "M7", quantity := .finite 50, price := .finite 100, trade_type := "buy" },
         { symbol := "M8", quantity := .finite 50, price := .finite 100, trade_type := "buy" },
         { symbol := "M9", quantity := .finite 50, price := .finite 100, trade_type := "buy" },
         { symbol := "M1", quantity := .finite (-50), price := .finite 100, trade_type := "sell" },
         { symbol := "M2", quantity := .finite (-50), price := .finite 100, trade_type := "sell" },
         { symbol := "M3", quantity := .finite (-50), price := .finite 100, trade_type := "sell" },
         { symbol := "M4", quantity := .finite (-50), price := .finite 100, trade_type := "sell" },
         { symbol := "M5", quantity := .finite (-50), price := .finite 100, trade_type := "sell" },
         { symbol := "M6", quantity := .finite (-50), price := .finite 100, trade_type := "sell" },
         { symbol := "M7", quantity := .finite (-50), price := .finite 100, trade_type := "sell" },
         { symbol := "M8", quantity := .finite (-50), price := .finite 100, trade_type := "sell" },
         { symbol := "M9", quantity := .finite (-50), price := .finite 100, trade_type := "sell" },
         { symbol := "K", quantity := .finite 0, price := .finite 9000, trade_type := "sell" }] := by
  simp [Backtest.place_trades, Backtest.plookup, List.find?, List.foldl,
    RFloat.finite_fdiv, RFloat.finite_neg]
  norm_num

/-- Day-1 realized PnL: only the buy of `T` survives the overlap
cancellation, contributing `(5500 - 5000) * 1 = 500`. -/
theorem c9w_pnl :
    (Backtest.close_positions_and_log
        [{ symbol := "T", quantity := .finite 1, price := .finite 5000, trade_type := "buy" },
         { symbol := "M1", quantity := .finite 50, price := .finite 100, trade_type := "buy" },
         { symbol := "M2", quantity := .finite 50, price := .finite 100, trade_type := "buy" },
         { symbol := "M3", quantity := .finite 50, price := .finite 100, trade_type := "buy" },
         { symbol := "M4", quantity := .finite 50, price := .finite 100, trade_type := "buy" },
         { symbol := "M5", quantity := .finite 50, price := .finite 100, trade_type := "buy" },
         { symbol := "M6", quantity := .finite 50, price := .finite 100, trade_type := "buy" },
         { symbol := "M7", quantity := .finite 50, price := .finite 100, trade_type := "buy" },
         { symbol := "M8", quantity := .finite 50, price := .finite 100, trade_type := "buy" },
         { symbol := "M9", quantity := .finite 50, price := .finite 100, trade_type := "buy" },
         { symbol := "M1", quantity := .finite (-50), price := .finite 100, trade_type := "sell" },
         { symbol := "M2", quantity := .finite (-50), price := .finite 100, trade_type := "sell" },
         { symbol := "M3", quantity := .finite (-50), price := .finite 100, trade_type := "sell" },
         { symbol := "M4", quantity := .finite (-50), price := .finite 100, trade_type := "sell" },
         { symbol := "M5", quantity := .finite (-50), price := .finite 100, trade_type := "sell" },
         { symbol := "M6", quantity := .finite (-50), price := .finite 100, trade_type := "sell" },
         { symbol := "M7", quantity := .finite (-50), price := .finite 100, trade_type := "sell" },
         { symbol := "M8", quantity := .finite (-50), price := .finite 100, trade_type := "sell" },
         { symbol := "M9", quantity := .finite (-50), price := .finite 100, trade_type := "sell" },
         { symbol := "K", quantity := .finite 0, price := .finite 9000, trade_type := "sell" }]
        [("T", .finite 5500), ("M1", .finite 115), ("M2", .finite 115),
         ("M3", .finite 115), ("M4", .finite 115), ("M5", .finite 115),
         ("M6", .finite 115), ("M7", .finite 115), ("M8", .finite 115),
         ("M9", .finite 115), ("K", .finite 20000)]).1
      = .finite 500 := by
  simp [Backtest.close_positions_and_log, Backtest.plookup, List.find?, List.foldl,
    Option.getD, RFloat.finite_sub, RFloat.finite_mul, RFloat.finite_add,
    RFloat.finite_neg]
  norm_num

/-- Day 1 of the compounding example realizes a PnL of `+500`. -/
theorem c9w_day1 :
    (Backtest.backtestDay Backtest.c9Store 1 (.finite 100000) (.finite 1)).pnl
      = .finite 500 := by
  simp only [Backtest.backtestDay, c9w_top_bottom, c9w_alloc, c9w_open, c9w_close]
  rw [c9w_portfolio, c9w_pnl]

/-- Claim C9, witness: after a day-1 PnL of `+500` on `100000` initial
cash, day 2 allocates `(100000 + 500) * 1 / 20 = 5025`. -/
theorem c9_allocation_from_current_cash_witness :
    ∃ h : 1 < (Backtest.backtestLoop Backtest.c9Store (.finite 1) [1, 2]
        (.finite 100000)).length,
      ((Backtest.backtestLoop Backtest.c9Store (.finite 1) [1, 2]
          (.finite 100000)).get ⟨1, h⟩).allocation
          = ((Backtest.backtestLoop Backtest.c9Store (.finite 1) [1, 2]
              (.finite 100000)).take 1).foldl
              (fun c r => c + r.pnl) (.finite 100000) * .finite 1 / 20
        ∧ ((Backtest.backtestLoop Backtest.c9Store (.finite 1) [1, 2]
            (.finite 100000)).take 1).foldl
            (fun c r => c + r.pnl) (.finite 100000) = .finite 100500
        ∧ ((Backtest.backtestLoop Backtest.c9Store (.finite 1) [1, 2]
            (.finite 100000)).get ⟨1, h⟩).allocation = .finite 5025 := by
  have hlen : 1 < (Backtest.backtestLoop Backtest.c9Store (.finite 1) [1, 2]
      (.finite 100000)).length := by
    rw [Backtest.backtestLoop_length]
    norm_num
  have hfold : ((Backtest.backtestLoop Backtest.c9Store (.finite 1) [1, 2]
      (.finite 100000)).take 1).foldl (fun c r => c + r.pnl) (.finite 100000)
        = RFloat.finite 100500 := by
    simp only [Backtest.backtestLoop, List.take_succ_cons, List.take_zero,
      List.foldl_cons, List.foldl_nil]
    rw [c9w_day1, RFloat.finite_add]
    norm_num
  have halloc := c9_allocation_from_current_cash Backtest.c9Store (.finite 1) [1, 2]
    (.finite 100000) 1 hlen
  refine ⟨hlen, halloc, hfold, ?_⟩
  rw [halloc, hfold, RFloat.finite_mul, RFloat.ofNat_def,
    RFloat.finite_div _ _ (by norm_num)]
  norm_num
